import Mathlib

/-!
Verification of the WellPulse SCADA ingestion core against its
natural-language specification.

The Rust sources under `apps/scada-ingestion/src` are shallowly embedded:
pure functions become Lean functions, stateful components become explicit
state passing over record types, machine integers become `Nat`, `f64`
values that the verified claims touch become `ℚ` (exact arithmetic; IEEE
rounding is not modelled), timestamps become abstract `Nat` instants
supplied by the caller, and fallible code returns `Except`.
-/

namespace WellPulse

/-! ## Shared adapter types (`adapters/mod.rs`) -/

/-- Data quality indicator (`adapters/mod.rs`, `ReadingQuality`). -/
inductive ReadingQuality where
  | good
  | bad
  | uncertain
deriving DecidableEq, Repr

/-- Protocol-specific errors (`adapters/mod.rs`, `ProtocolError`).
String payloads carry the source's message arguments; the `std::io::Error`
payload of `IoError` is modelled as its display string. -/
inductive ProtocolError where
  | connectionFailed (msg : String)
  | notConnected
  | authenticationFailed (msg : String)
  | subscriptionFailed (msg : String)
  | readFailed (msg : String)
  | invalidAddress (msg : String)
  | invalidConfiguration (msg : String)
  | unsupportedProtocol (protocol : String)
  | protocolSpecific (msg : String)
  | timeout
  | ioError (msg : String)
deriving DecidableEq, Repr

/-- Common reading format produced by every adapter
(`adapters/mod.rs`, `ProtocolReading`). UUIDs and UTC instants are
abstracted to `Nat`; the `f64` value is modelled as `ℚ`. -/
structure ProtocolReading where
  timestamp : Nat
  tenant_id : Nat
  well_id : Nat
  tag_name : String
  value : ℚ
  quality : ReadingQuality
  source_protocol : String
deriving DecidableEq, Repr

/-! ## Connection health monitor (`health/mod.rs`) -/

/-- Connection health status (`health/mod.rs`, `ConnectionStatus`). -/
inductive ConnectionStatus where
  | connected
  | disconnected
  | reconnecting
  | circuitOpen
deriving DecidableEq, Repr

/-- Circuit breaker state (`health/mod.rs`, `CircuitBreakerState`).
The source's `Open` variant is spelled `opened` (`open` is reserved). -/
inductive CircuitBreakerState where
  | closed
  | opened
  | halfOpen
deriving DecidableEq, Repr

/-- Connection health state (`health/mod.rs`, `ConnectionHealth`). -/
structure ConnectionHealth where
  connection_id : Nat
  tenant_id : Nat
  status : ConnectionStatus
  last_successful_reading : Option Nat
  last_connection_attempt : Option Nat
  consecutive_failures : Nat
  total_failures : Nat
  total_successes : Nat
  uptime_seconds : Nat
  circuit_breaker_state : CircuitBreakerState
deriving DecidableEq, Repr

/-- Reconnection configuration (`health/mod.rs`, `ReconnectionConfig`).
The `f64` backoff multiplier is modelled as `ℚ`. -/
structure ReconnectionConfig where
  initial_backoff_ms : Nat
  max_backoff_ms : Nat
  backoff_multiplier : ℚ
  max_retry_attempts : Nat
  circuit_breaker_threshold : Nat
  circuit_breaker_timeout_secs : Nat
deriving DecidableEq, Repr

/-- The source's `Default for ReconnectionConfig`. -/
def ReconnectionConfig.default : ReconnectionConfig :=
  { initial_backoff_ms := 1000
    max_backoff_ms := 60000
    backoff_multiplier := 2
    max_retry_attempts := 10
    circuit_breaker_threshold := 5
    circuit_breaker_timeout_secs := 300 }

/-- State owned by one `HealthMonitor`: the `ConnectionHealth` record plus
the separately locked `circuit_breaker_opened_at` timestamp. The
immutable `config` is passed to each operation instead of being stored. -/
structure HealthMonitorState where
  health : ConnectionHealth
  circuit_breaker_opened_at : Option Nat
deriving DecidableEq, Repr

/-- The monitor constructor `HealthMonitor::new`. -/
def HealthMonitor.new (connection_id tenant_id : Nat) : HealthMonitorState :=
  { health :=
      { connection_id := connection_id
        tenant_id := tenant_id
        status := ConnectionStatus.disconnected
        last_successful_reading := none
        last_connection_attempt := none
        consecutive_failures := 0
        total_failures := 0
        total_successes := 0
        uptime_seconds := 0
        circuit_breaker_state := CircuitBreakerState.closed }
    circuit_breaker_opened_at := none }

/-- The event `HealthMonitor::record_success`, at instant `now`. -/
def record_success (now : Nat) (m : HealthMonitorState) : HealthMonitorState :=
  let h := { m.health with
    last_successful_reading := some now
    consecutive_failures := 0
    total_successes := m.health.total_successes + 1
    status := ConnectionStatus.connected }
  if h.circuit_breaker_state ≠ CircuitBreakerState.closed then
    { health := { h with circuit_breaker_state := CircuitBreakerState.closed }
      circuit_breaker_opened_at := none }
  else
    { m with health := h }

/-- The event `HealthMonitor::record_failure`, at instant `now`. The error
argument is only logged by the source; it does not influence the state. -/
def record_failure (cfg : ReconnectionConfig) (now : Nat) (_e : ProtocolError)
    (m : HealthMonitorState) : HealthMonitorState :=
  let h := { m.health with
    consecutive_failures := m.health.consecutive_failures + 1
    total_failures := m.health.total_failures + 1
    status := ConnectionStatus.disconnected }
  if cfg.circuit_breaker_threshold ≤ h.consecutive_failures ∧
      h.circuit_breaker_state = CircuitBreakerState.closed then
    { health := { h with
        circuit_breaker_state := CircuitBreakerState.opened
        status := ConnectionStatus.circuitOpen }
      circuit_breaker_opened_at := some now }
  else
    { m with health := h }

/-- The event `HealthMonitor::record_connection_attempt`, at instant `now`. -/
def record_connection_attempt (now : Nat) (m : HealthMonitorState) : HealthMonitorState :=
  { m with health := { m.health with
      last_connection_attempt := some now
      status := ConnectionStatus.reconnecting } }

/-- The internal transition `HealthMonitor::transition_to_half_open`. -/
def transition_to_half_open (m : HealthMonitorState) : HealthMonitorState :=
  if m.health.circuit_breaker_state = CircuitBreakerState.opened then
    { m with health := { m.health with
        circuit_breaker_state := CircuitBreakerState.halfOpen
        consecutive_failures := 0 } }
  else
    m

/-- The query `HealthMonitor::can_attempt_connection` at instant `now`.
The source both answers and (from `Open`, after the timeout) mutates, so
the embedding returns the answer paired with the successor state. Elapsed
time is `now - opened_at` (times are assumed monotone; the source's
`i64 → u64` cast of a negative duration is not modelled). -/
def can_attempt_connection (cfg : ReconnectionConfig) (now : Nat)
    (m : HealthMonitorState) : Bool × HealthMonitorState :=
  match m.health.circuit_breaker_state with
  | CircuitBreakerState.closed => (true, m)
  | CircuitBreakerState.opened =>
    match m.circuit_breaker_opened_at with
    | some opened_at =>
      if cfg.circuit_breaker_timeout_secs ≤ now - opened_at then
        (true, transition_to_half_open m)
      else
        (false, m)
    | none => (false, m)
  | CircuitBreakerState.halfOpen => (true, m)

/-- The query `HealthMonitor::next_backoff_delay`, in milliseconds.
The source computes `(initial_backoff_ms as f64 * multiplier.powi(n)) as u64`
and caps it with `.min(max_backoff_ms)`; the float product is modelled as
exact `ℚ` arithmetic and the truncating non-negative cast as `Nat.floor`. -/
def next_backoff_delay (cfg : ReconnectionConfig) (m : HealthMonitorState) : Nat :=
  min
    (Nat.floor ((cfg.initial_backoff_ms : ℚ) *
      cfg.backoff_multiplier ^ m.health.consecutive_failures))
    cfg.max_backoff_ms

/-- The query `HealthMonitor::is_max_retries_reached`. -/
def is_max_retries_reached (cfg : ReconnectionConfig) (m : HealthMonitorState) : Bool :=
  if cfg.max_retry_attempts = 0 then
    false
  else
    decide (cfg.max_retry_attempts ≤ m.health.consecutive_failures)

/-- The query `HealthMonitor::uptime_percentage`: the success fraction
scaled to a percentage (the source multiplies the ratio by `100.0`). -/
def uptime_percentage (m : HealthMonitorState) : ℚ :=
  let total_operations := m.health.total_successes + m.health.total_failures
  if total_operations = 0 then 0
  else ((m.health.total_successes : ℚ) / (total_operations : ℚ)) * 100

/-- N successive `record_failure` calls from the freshly constructed
monitor. The stamped instants do not influence the verified claims, so
each call is stamped with instant 0 and a fixed connection error. -/
def record_failures (cfg : ReconnectionConfig) : Nat → HealthMonitorState
  | 0 => HealthMonitor.new 0 0
  | n + 1 =>
      record_failure cfg 0 (ProtocolError.connectionFailed "poll failed")
        (record_failures cfg n)

/-- Characterization of a pure failure trace: counters track the number of
calls, the breaker opens exactly when the count reaches the threshold, and
the status shows `circuitOpen` only on the call that opens the breaker
(later failures overwrite it with `disconnected`). -/
lemma record_failures_spec (cfg : ReconnectionConfig)
    (hT : 1 ≤ cfg.circuit_breaker_threshold) (N : Nat) :
    (record_failures cfg N).health.consecutive_failures = N ∧
    (record_failures cfg N).health.total_failures = N ∧
    (record_failures cfg N).health.circuit_breaker_state =
      (if N < cfg.circuit_breaker_threshold then CircuitBreakerState.closed
       else CircuitBreakerState.opened) ∧
    (record_failures cfg N).health.status =
      (if N = cfg.circuit_breaker_threshold then ConnectionStatus.circuitOpen
       else ConnectionStatus.disconnected) := by
  induction N with
  | zero =>
    refine ⟨rfl, rfl, ?_, ?_⟩
    · rw [if_pos (by omega)]; rfl
    · rw [if_neg (by omega)]; rfl
  | succ n ih =>
    obtain ⟨hc, ht, hb, hs⟩ := ih
    by_cases hlt : n + 1 < cfg.circuit_breaker_threshold
    · have hcond : ¬(cfg.circuit_breaker_threshold ≤ n + 1 ∧
          (record_failures cfg n).health.circuit_breaker_state =
            CircuitBreakerState.closed) := by
        intro hco; omega
      simp only [record_failures, record_failure, hc, if_neg hcond]
      refine ⟨trivial, by rw [ht], ?_, ?_⟩
      · simpa [hb] using by rw [if_pos (by omega), if_pos hlt]
      · rw [if_neg (by omega)]
    · by_cases heq : n + 1 = cfg.circuit_breaker_threshold
      · have hcond : cfg.circuit_breaker_threshold ≤ n + 1 ∧
            (record_failures cfg n).health.circuit_breaker_state =
              CircuitBreakerState.closed := by
          constructor
          · omega
          · rw [hb, if_pos (by omega)]
        simp only [record_failures, record_failure, hc, if_pos hcond]
        refine ⟨trivial, by rw [ht], ?_, ?_⟩
        · rw [if_neg hlt]
        · rw [if_pos heq]
      · have hcond : ¬(cfg.circuit_breaker_threshold ≤ n + 1 ∧
            (record_failures cfg n).health.circuit_breaker_state =
              CircuitBreakerState.closed) := by
          intro hco
          rw [hb, if_neg (by omega)] at hco
          exact absurd hco.2 (by simp)
        simp only [record_failures, record_failure, hc, if_neg hcond]
        refine ⟨trivial, by rw [ht], ?_, ?_⟩
        · rw [hb, if_neg (by omega), if_neg hlt]
        · rw [if_neg heq]

/-- A reconnection configuration with circuit breaker threshold 1. -/
def cfgT1 : ReconnectionConfig :=
  { ReconnectionConfig.default with circuit_breaker_threshold := 1 }

/-- C1. The claim's invariant "status = CircuitOpen iff breaker = Open at
every reachable state" fails: with threshold 1, after 2 successive
failures the breaker is Open but the second `record_failure` call has
overwritten the status with Disconnected, so the iff does not hold. -/
theorem circuit_status_iff_counterexample :
    (record_failures cfgT1 2).health.circuit_breaker_state =
      CircuitBreakerState.opened ∧
    (record_failures cfgT1 2).health.status = ConnectionStatus.disconnected ∧
    ¬((record_failures cfgT1 2).health.status = ConnectionStatus.circuitOpen ↔
      (record_failures cfgT1 2).health.circuit_breaker_state =
        CircuitBreakerState.opened) := by
  decide

/-- C1 (amended). For threshold T ≥ 1, after N successive `record_failure`
calls from the initial state the breaker is Closed if N < T and Open
otherwise, and the status equals CircuitOpen exactly when N = T (the call
that opens the breaker); for N > T the status is Disconnected although
the breaker remains Open. -/
theorem circuit_opens_at_threshold (cfg : ReconnectionConfig)
    (hT : 1 ≤ cfg.circuit_breaker_threshold) (N : Nat) :
    (record_failures cfg N).health.circuit_breaker_state =
      (if N < cfg.circuit_breaker_threshold then CircuitBreakerState.closed
       else CircuitBreakerState.opened) ∧
    ((record_failures cfg N).health.status = ConnectionStatus.circuitOpen ↔
      N = cfg.circuit_breaker_threshold) := by
  obtain ⟨-, -, hb, hs⟩ := record_failures_spec cfg hT N
  refine ⟨hb, ?_⟩
  rw [hs]
  constructor
  · intro h
    by_contra hne
    rw [if_neg hne] at h
    exact absurd h (by simp)
  · intro h
    rw [if_pos h]

/-- Witness for C1 at the default configuration (threshold 5), N = 5. -/
theorem circuit_opens_at_threshold_witness :
    (record_failures ReconnectionConfig.default 5).health.circuit_breaker_state =
      (if 5 < ReconnectionConfig.default.circuit_breaker_threshold then
        CircuitBreakerState.closed else CircuitBreakerState.opened) ∧
    ((record_failures ReconnectionConfig.default 5).health.status =
        ConnectionStatus.circuitOpen ↔
      5 = ReconnectionConfig.default.circuit_breaker_threshold) :=
  circuit_opens_at_threshold ReconnectionConfig.default (by decide) 5

/-- A monitor in the HalfOpen breaker state, reached through the source's
own transitions: one failure under threshold 1 opens the breaker at
instant 0, then `transition_to_half_open` fires. -/
def halfOpenMonitor : HealthMonitorState :=
  transition_to_half_open (record_failures cfgT1 1)

/-- C2. The claim that `record_failure` while HalfOpen re-opens the
breaker fails: `record_failure` only opens the breaker when it is Closed,
so from HalfOpen the breaker stays HalfOpen, the status becomes
Disconnected (not CircuitOpen), and the circuit-open-at stamp is left at
its old value instead of being re-stamped with the call instant 9. -/
theorem half_open_failure_counterexample :
    halfOpenMonitor.health.circuit_breaker_state = CircuitBreakerState.halfOpen ∧
    (record_failure cfgT1 9 (ProtocolError.readFailed "probe")
        halfOpenMonitor).health.circuit_breaker_state =
      CircuitBreakerState.halfOpen ∧
    (record_failure cfgT1 9 (ProtocolError.readFailed "probe")
        halfOpenMonitor).health.status = ConnectionStatus.disconnected ∧
    (record_failure cfgT1 9 (ProtocolError.readFailed "probe")
        halfOpenMonitor).circuit_breaker_opened_at = some 0 := by
  decide

/-- C2 (amended). From a HalfOpen breaker: `record_success` sets status
Connected and breaker Closed in the same update (clearing the
circuit-open-at stamp), while `record_failure` increments the failure
counters and sets status Disconnected, leaving the breaker HalfOpen and
the circuit-open-at stamp unchanged (the breaker re-opens only from
Closed). -/
theorem half_open_transitions (cfg : ReconnectionConfig) (now : Nat)
    (e : ProtocolError) (m : HealthMonitorState)
    (hho : m.health.circuit_breaker_state = CircuitBreakerState.halfOpen) :
    ((record_success now m).health.status = ConnectionStatus.connected ∧
     (record_success now m).health.circuit_breaker_state =
       CircuitBreakerState.closed ∧
     (record_success now m).circuit_breaker_opened_at = none) ∧
    ((record_failure cfg now e m).health.status = ConnectionStatus.disconnected ∧
     (record_failure cfg now e m).health.circuit_breaker_state =
       CircuitBreakerState.halfOpen ∧
     (record_failure cfg now e m).circuit_breaker_opened_at =
       m.circuit_breaker_opened_at ∧
     (record_failure cfg now e m).health.consecutive_failures =
       m.health.consecutive_failures + 1 ∧
     (record_failure cfg now e m).health.total_failures =
       m.health.total_failures + 1) := by
  constructor
  · simp only [record_success]
    rw [if_pos (by simp [hho])]
    exact ⟨rfl, rfl, rfl⟩
  · simp only [record_failure]
    rw [if_neg (fun hc => absurd hc.2 (by simp [hho]))]
    exact ⟨rfl, hho, rfl, rfl, rfl⟩

/-- Witness for C2 at the concrete HalfOpen monitor. -/
theorem half_open_transitions_witness :
    ((record_success 4 halfOpenMonitor).health.status =
       ConnectionStatus.connected ∧
     (record_success 4 halfOpenMonitor).health.circuit_breaker_state =
       CircuitBreakerState.closed ∧
     (record_success 4 halfOpenMonitor).circuit_breaker_opened_at = none) ∧
    ((record_failure cfgT1 4 ProtocolError.timeout
        halfOpenMonitor).health.status = ConnectionStatus.disconnected ∧
     (record_failure cfgT1 4 ProtocolError.timeout
        halfOpenMonitor).health.circuit_breaker_state =
       CircuitBreakerState.halfOpen ∧
     (record_failure cfgT1 4 ProtocolError.timeout
        halfOpenMonitor).circuit_breaker_opened_at =
       halfOpenMonitor.circuit_breaker_opened_at ∧
     (record_failure cfgT1 4 ProtocolError.timeout
        halfOpenMonitor).health.consecutive_failures =
       halfOpenMonitor.health.consecutive_failures + 1 ∧
     (record_failure cfgT1 4 ProtocolError.timeout
        halfOpenMonitor).health.total_failures =
       halfOpenMonitor.health.total_failures + 1) :=
  half_open_transitions cfgT1 4 ProtocolError.timeout halfOpenMonitor (by decide)

/-- C7. The backoff delay is the capped exponential
`min(initial · multiplier^consecutive_failures, max)`; it is non-decreasing
in the consecutive-failure count whenever the multiplier is at least 1,
and is always bounded above by `max_backoff_ms`. -/
theorem next_backoff_monotone_bounded (cfg : ReconnectionConfig)
    (m m' : HealthMonitorState) (hmul : 1 ≤ cfg.backoff_multiplier)
    (hc : m.health.consecutive_failures ≤ m'.health.consecutive_failures) :
    next_backoff_delay cfg m =
      min (Nat.floor ((cfg.initial_backoff_ms : ℚ) *
        cfg.backoff_multiplier ^ m.health.consecutive_failures))
        cfg.max_backoff_ms ∧
    next_backoff_delay cfg m ≤ next_backoff_delay cfg m' ∧
    next_backoff_delay cfg m ≤ cfg.max_backoff_ms := by
  refine ⟨rfl, ?_, Nat.min_le_right _ _⟩
  apply min_le_min _ le_rfl
  apply Nat.floor_le_floor
  apply mul_le_mul_of_nonneg_left
  · exact pow_le_pow_right₀ hmul hc
  · positivity

/-- Witness for C7 at the default configuration (multiplier 2), comparing
the fresh monitor (0 failures) with the monitor after one failure. -/
theorem next_backoff_monotone_bounded_witness :
    next_backoff_delay ReconnectionConfig.default (HealthMonitor.new 0 0) =
      min (Nat.floor ((ReconnectionConfig.default.initial_backoff_ms : ℚ) *
        ReconnectionConfig.default.backoff_multiplier ^
          (HealthMonitor.new 0 0).health.consecutive_failures))
        ReconnectionConfig.default.max_backoff_ms ∧
    next_backoff_delay ReconnectionConfig.default (HealthMonitor.new 0 0) ≤
      next_backoff_delay ReconnectionConfig.default
        (record_failures ReconnectionConfig.default 1) ∧
    next_backoff_delay ReconnectionConfig.default (HealthMonitor.new 0 0) ≤
      ReconnectionConfig.default.max_backoff_ms :=
  next_backoff_monotone_bounded ReconnectionConfig.default
    (HealthMonitor.new 0 0) (record_failures ReconnectionConfig.default 1)
    (by norm_num [ReconnectionConfig.default]) (by decide)

/-- The monitor after `s` recorded successes followed by `f` recorded
failures, starting from the freshly constructed monitor (stamped instants
and the error payload do not affect the counters). -/
def ops_monitor (s f : Nat) : HealthMonitorState :=
  (record_failure ReconnectionConfig.default 0
      (ProtocolError.connectionFailed "down"))^[f]
    ((record_success 0)^[s] (HealthMonitor.new 0 0))

/-- Success and failure counters of `record_success`. -/
lemma record_success_counts (now : Nat) (m : HealthMonitorState) :
    (record_success now m).health.total_successes =
      m.health.total_successes + 1 ∧
    (record_success now m).health.total_failures = m.health.total_failures := by
  simp only [record_success]
  split <;> exact ⟨rfl, rfl⟩

/-- Success and failure counters of `record_failure`. -/
lemma record_failure_counts (cfg : ReconnectionConfig) (now : Nat)
    (e : ProtocolError) (m : HealthMonitorState) :
    (record_failure cfg now e m).health.total_successes =
      m.health.total_successes ∧
    (record_failure cfg now e m).health.total_failures =
      m.health.total_failures + 1 := by
  simp only [record_failure]
  split <;> exact ⟨rfl, rfl⟩

/-- Counter totals after `s` successes and `f` failures. -/
lemma ops_monitor_counts (s f : Nat) :
    (ops_monitor s f).health.total_successes = s ∧
    (ops_monitor s f).health.total_failures = f := by
  have hsucc : ∀ n, ((record_success 0)^[n]
      (HealthMonitor.new 0 0)).health.total_successes = n ∧
      ((record_success 0)^[n]
        (HealthMonitor.new 0 0)).health.total_failures = 0 := by
    intro n
    induction n with
    | zero => exact ⟨rfl, rfl⟩
    | succ k ih =>
      rw [Function.iterate_succ_apply']
      obtain ⟨h1, h2⟩ := record_success_counts 0
        ((record_success 0)^[k] (HealthMonitor.new 0 0))
      exact ⟨by rw [h1, ih.1], by rw [h2, ih.2]⟩
  unfold ops_monitor
  induction f with
  | zero => exact hsucc s
  | succ k ih =>
    rw [Function.iterate_succ_apply']
    obtain ⟨h1, h2⟩ := record_failure_counts ReconnectionConfig.default 0
      (ProtocolError.connectionFailed "down")
      ((record_failure ReconnectionConfig.default 0
          (ProtocolError.connectionFailed "down"))^[k]
        ((record_success 0)^[s] (HealthMonitor.new 0 0)))
    exact ⟨by rw [h1, ih.1], by rw [h2, ih.2]⟩

/-- The uptime query evaluated after 7 successes and 3 failures. -/
lemma uptime_seven_three : uptime_percentage (ops_monitor 7 3) = 70 := by
  obtain ⟨hs, hf⟩ := ops_monitor_counts 7 3
  simp only [uptime_percentage, hs, hf]
  norm_num

/-- C8. The uptime query returns a percentage, not a ratio: after 7
successes and 3 failures it evaluates to 70, which is not within 0.0001
of the claimed 0.70. -/
theorem uptime_percentage_counterexample :
    uptime_percentage (ops_monitor 7 3) = 70 ∧
    ¬(|uptime_percentage (ops_monitor 7 3) - 7 / 10| ≤ 1 / 10000) := by
  refine ⟨uptime_seven_three, ?_⟩
  rw [uptime_seven_three,
    abs_of_nonneg (by norm_num : (0 : ℚ) ≤ 70 - 7 / 10)]
  norm_num

/-- C8 (amended). The uptime query returns
`100 · total_successes / (total_successes + total_failures)` — a
percentage: after `s` recorded successes and `f` recorded failures
(`s + f > 0`) it equals `s / (s + f) · 100`, and after 7 successes and 3
failures it equals 70 (within the 0.01 tolerance the repository's own
test asserts). -/
theorem uptime_percentage_after (s f : Nat) (hpos : s + f ≠ 0) :
    uptime_percentage (ops_monitor s f) =
      (s : ℚ) / ((s : ℚ) + (f : ℚ)) * 100 ∧
    uptime_percentage (ops_monitor 7 3) = 70 ∧
    |uptime_percentage (ops_monitor 7 3) - 70| ≤ 1 / 100 := by
  obtain ⟨hs, hf⟩ := ops_monitor_counts s f
  refine ⟨?_, uptime_seven_three, by rw [uptime_seven_three]; norm_num⟩
  simp only [uptime_percentage, hs, hf]
  rw [if_neg hpos]
  push_cast
  ring

/-- Witness for C8 at 7 successes and 3 failures. -/
theorem uptime_percentage_after_witness :
    uptime_percentage (ops_monitor 7 3) =
      (7 : ℚ) / ((7 : ℚ) + (3 : ℚ)) * 100 ∧
    uptime_percentage (ops_monitor 7 3) = 70 ∧
    |uptime_percentage (ops_monitor 7 3) - 70| ≤ 1 / 100 :=
  uptime_percentage_after 7 3 (by decide)

/-! ## Aggregator (`aggregator.rs`) -/

/-- Reading shape consumed by the aggregator
(`opc_client.rs`, `TagReading`). -/
structure TagReading where
  tenant_id : Nat
  well_id : Nat
  tag_node_id : String
  timestamp : Nat
  value : ℚ
  quality : String
deriving DecidableEq, Repr

/-- State of one `Aggregator`: the in-memory buffer plus the sequence of
batches handed to `TimescaleWriter::write_batch` so far (the write is
attempted whether or not it succeeds, so the log records the hand-off;
metrics gauges and the flush clock are not modelled). -/
structure AggregatorState where
  buffer : List TagReading
  written : List (List TagReading)
deriving DecidableEq, Repr

/-- The aggregator constructor `Aggregator::new`. -/
def Aggregator.new : AggregatorState :=
  { buffer := [], written := [] }

/-- The operation `Aggregator::flush_internal`: extract the whole buffer
(leaving it empty) and hand it to the writer; an empty buffer returns
early without touching the writer. -/
def flush_internal (s : AggregatorState) : AggregatorState :=
  if s.buffer.isEmpty then s
  else { buffer := [], written := s.written ++ [s.buffer] }

/-- The operation `Aggregator::add_reading` with capacity
`max_buffer_size`: append, then flush if the new size reaches the
capacity. -/
def add_reading (max_buffer_size : Nat) (reading : TagReading)
    (s : AggregatorState) : AggregatorState :=
  let buffer := s.buffer ++ [reading]
  if max_buffer_size ≤ buffer.length then
    flush_internal { buffer := buffer, written := s.written }
  else
    { buffer := buffer, written := s.written }

/-- A flush always leaves the buffer empty. -/
lemma flush_internal_buffer (s : AggregatorState) :
    (flush_internal s).buffer = [] := by
  unfold flush_internal
  split
  · next h => simpa using h
  · rfl

/-- C4. After any `add_reading` the buffer holds at most
`max_buffer_size` readings (a size-driven flush fires inside the call
once the new size reaches the capacity, emptying the buffer and handing
the writer the whole appended buffer in insertion order), and after any
flush the buffer is empty and the writer received exactly the extracted
readings in order. -/
theorem aggregator_bound_and_flush (max_buffer_size : Nat)
    (reading : TagReading) (s : AggregatorState) :
    (add_reading max_buffer_size reading s).buffer.length ≤ max_buffer_size ∧
    (flush_internal s).buffer = [] ∧
    (s.buffer ≠ [] → (flush_internal s).written = s.written ++ [s.buffer]) ∧
    (max_buffer_size ≤ s.buffer.length + 1 →
      (add_reading max_buffer_size reading s).buffer = [] ∧
      (add_reading max_buffer_size reading s).written =
        s.written ++ [s.buffer ++ [reading]]) := by
  refine ⟨?_, flush_internal_buffer s, ?_, ?_⟩
  · simp only [add_reading]
    split
    · rw [flush_internal_buffer]
      exact Nat.zero_le _
    · next h =>
      simp only [List.length_append, List.length_cons, List.length_nil] at h ⊢
      omega
  · intro h
    unfold flush_internal
    rw [if_neg (by simpa using h)]
  · intro h
    have hlen : max_buffer_size ≤ (s.buffer ++ [reading]).length := by
      simpa using h
    simp only [add_reading]
    rw [if_pos hlen]
    refine ⟨flush_internal_buffer _, ?_⟩
    unfold flush_internal
    rw [if_neg (by simp)]

/-- A concrete reading used by witnesses. -/
def oilReading (n : Nat) : TagReading :=
  { tenant_id := 1
    well_id := 2
    tag_node_id := "oil_rate"
    timestamp := n
    value := (n : ℚ)
    quality := "Good" }

/-- A one-element aggregator buffer used by the C4 witness. -/
def smallAggregator : AggregatorState :=
  { buffer := [oilReading 0], written := [] }

/-- Witness for C4: adding a second reading to a capacity-2 aggregator
flushes the two buffered readings in insertion order. -/
theorem aggregator_bound_and_flush_witness :
    (add_reading 2 (oilReading 1) smallAggregator).buffer.length ≤ 2 ∧
    (flush_internal smallAggregator).buffer = [] ∧
    (flush_internal smallAggregator).written =
      smallAggregator.written ++ [smallAggregator.buffer] ∧
    (add_reading 2 (oilReading 1) smallAggregator).buffer = [] ∧
    (add_reading 2 (oilReading 1) smallAggregator).written =
      smallAggregator.written ++
        [smallAggregator.buffer ++ [oilReading 1]] := by
  obtain ⟨h1, h2, h3, h4⟩ :=
    aggregator_bound_and_flush 2 (oilReading 1) smallAggregator
  exact ⟨h1, h2, h3 (by decide), (h4 (by decide)).1, (h4 (by decide)).2⟩

/-! ## DNP3 quality-flag mapping (`adapters/dnp3.rs`) -/

/-- The mapping `map_dnp3_quality` of DNP3 quality flags
(a `u8`, modelled as `Nat`; bit 0 ONLINE, bit 4 COMM_LOST,
bit 5 REMOTE_FORCED, bit 6 LOCAL_FORCED). -/
def map_dnp3_quality (flags : Nat) : ReadingQuality :=
  let ONLINE : Nat := 0b00000001
  let COMM_LOST : Nat := 0b00010000
  let REMOTE_FORCED : Nat := 0b00100000
  let LOCAL_FORCED : Nat := 0b01000000
  if flags &&& ONLINE ≠ 0 ∧
      flags &&& (COMM_LOST ||| REMOTE_FORCED ||| LOCAL_FORCED) = 0 then
    ReadingQuality.good
  else if flags &&& COMM_LOST ≠ 0 then
    ReadingQuality.bad
  else
    ReadingQuality.uncertain

/-- C6. Evaluation of the quality-flag mapping on the claimed vectors:
the four non-zero vectors map as claimed, and Good is only produced when
ONLINE is set and no COMM_LOST/forced bit is set; but the all-zero flag
word maps to Uncertain, not Bad — diverging from the claim and from the
repository's own test, which asserts
`map_dnp3_quality(0b0000_0000) == ReadingQuality::Bad`. -/
theorem map_dnp3_quality_vectors :
    map_dnp3_quality 0b00000001 = ReadingQuality.good ∧
    map_dnp3_quality 0b00010000 = ReadingQuality.bad ∧
    map_dnp3_quality 0b00100001 = ReadingQuality.uncertain ∧
    map_dnp3_quality 0b01000001 = ReadingQuality.uncertain ∧
    map_dnp3_quality 0b00000000 = ReadingQuality.uncertain ∧
    map_dnp3_quality 0b00000000 ≠ ReadingQuality.bad ∧
    (∀ flags < 256, map_dnp3_quality flags = ReadingQuality.good →
      flags &&& 0b01110001 = 0b00000001) := by
  set_option maxRecDepth 4096 in decide

/-- Witness for the bounded quantifier of C6's evaluation theorem, at the
ONLINE-only flag word. -/
theorem map_dnp3_quality_vectors_witness :
    (1 : Nat) < 256 ∧ map_dnp3_quality 1 = ReadingQuality.good ∧
    (1 : Nat) &&& 0b01110001 = 0b00000001 :=
  ⟨by decide, by decide,
    map_dnp3_quality_vectors.2.2.2.2.2.2 1 (by decide) (by decide)⟩

/-! ## Adapter factory (`adapters/factory.rs`) -/

/-- The closed set of supported protocol adapters: the factory's `Ok`
results, identified by which adapter constructor runs. -/
inductive Adapter where
  | opcUa
  | modbusTcp
  | modbusRtu
  | mqtt
  | dnp3
  | hartIp
  | ethernetIp
deriving DecidableEq, Repr

/-- ASCII model of Rust's `str::to_uppercase` (the factory's tags are
ASCII, where the two functions agree). -/
def to_uppercase (s : String) : String :=
  String.mk (s.toList.map Char.toUpper)

/-- The tag strings each adapter's match arm accepts
(`AdapterFactory::create_adapter`). -/
def adapter_tags : Adapter → List String
  | Adapter.opcUa => ["OPC-UA", "OPCUA", "OPC_UA"]
  | Adapter.modbusTcp => ["MODBUS-TCP", "MODBUS_TCP", "MODBUSTCP"]
  | Adapter.modbusRtu => ["MODBUS-RTU", "MODBUS_RTU", "MODBUSRTU"]
  | Adapter.mqtt => ["MQTT"]
  | Adapter.dnp3 => ["DNP3"]
  | Adapter.hartIp => ["HART-IP", "HART_IP", "HARTIP"]
  | Adapter.ethernetIp => ["ETHERNET-IP", "ETHERNET_IP", "ETHERNETIP", "EIP"]

/-- Every tag string any match arm accepts. -/
def accepted_tags : List String :=
  ["OPC-UA", "OPCUA", "OPC_UA",
   "MODBUS-TCP", "MODBUS_TCP", "MODBUSTCP",
   "MODBUS-RTU", "MODBUS_RTU", "MODBUSRTU",
   "MQTT", "DNP3",
   "HART-IP", "HART_IP", "HARTIP",
   "ETHERNET-IP", "ETHERNET_IP", "ETHERNETIP", "EIP"]

/-- The factory `AdapterFactory::create_adapter`: match the upper-cased
tag against the accepted spellings (the source's `match` with
or-patterns is rendered as an if chain) or fail with
`UnsupportedProtocol` carrying the original input. -/
def create_adapter (protocol : String) : Except ProtocolError Adapter :=
  let u := to_uppercase protocol
  if u = "OPC-UA" ∨ u = "OPCUA" ∨ u = "OPC_UA" then
    Except.ok Adapter.opcUa
  else if u = "MODBUS-TCP" ∨ u = "MODBUS_TCP" ∨ u = "MODBUSTCP" then
    Except.ok Adapter.modbusTcp
  else if u = "MODBUS-RTU" ∨ u = "MODBUS_RTU" ∨ u = "MODBUSRTU" then
    Except.ok Adapter.modbusRtu
  else if u = "MQTT" then
    Except.ok Adapter.mqtt
  else if u = "DNP3" then
    Except.ok Adapter.dnp3
  else if u = "HART-IP" ∨ u = "HART_IP" ∨ u = "HARTIP" then
    Except.ok Adapter.hartIp
  else if u = "ETHERNET-IP" ∨ u = "ETHERNET_IP" ∨ u = "ETHERNETIP" ∨
      u = "EIP" then
    Except.ok Adapter.ethernetIp
  else
    Except.error (ProtocolError.unsupportedProtocol protocol)

/-- The factory's advertised protocol list
(`AdapterFactory::supported_protocols`). -/
def supported_protocols : List String :=
  ["OPC-UA", "Modbus-TCP", "Modbus-RTU", "MQTT", "DNP3", "HART-IP",
   "EtherNet/IP"]

/-- The specification's input normalization, stated from its words
("normalized to upper case, separators stripped"): upper-case the tag and
drop every non-alphanumeric character. Used only to compare the claimed
behaviour with the source factory. -/
def spec_normalize (s : String) : String :=
  to_uppercase (String.mk (s.toList.filter (fun c => c.isAlphanum)))

/-- C9. The factory is not separator-insensitive: "EtherNet/IP" — an
entry of the factory's own advertised protocol list — normalizes (in the
claim's sense) to "ETHERNETIP", a tag the factory accepts, yet
`create_adapter` rejects "EtherNet/IP" with `UnsupportedProtocol` because
only hyphen, underscore and concatenated spellings appear among the match
arms. -/
theorem create_adapter_separator_counterexample :
    "EtherNet/IP" ∈ supported_protocols ∧
    spec_normalize "EtherNet/IP" = "ETHERNETIP" ∧
    create_adapter "ETHERNETIP" = Except.ok Adapter.ethernetIp ∧
    create_adapter "EtherNet/IP" =
      Except.error (ProtocolError.unsupportedProtocol "EtherNet/IP") :=
  ⟨by decide, by decide, rfl, rfl⟩

/-- C9 (amended). The factory is case-insensitive via upper-casing, but
not separator-insensitive: `create_adapter` yields adapter `p` exactly
when the upper-cased input is one of `p`'s enumerated spellings (hyphen,
underscore, concatenated, plus the EIP alias), and every input whose
upper-casing is outside the accepted set — including separator variants
such as "EtherNet/IP" — fails with `UnsupportedProtocol` carrying the
original string. -/
theorem create_adapter_cases (s : String) (p : Adapter) :
    (create_adapter s = Except.ok p ↔ to_uppercase s ∈ adapter_tags p) ∧
    (to_uppercase s ∉ accepted_tags →
      create_adapter s = Except.error (ProtocolError.unsupportedProtocol s)) := by
  simp only [create_adapter]
  split_ifs with h1 h2 h3 h4 h5 h6 h7
  · rcases h1 with h | h | h <;> rw [h] <;>
      exact ⟨by cases p <;> simp [adapter_tags],
        fun hn => absurd (by decide) hn⟩
  · rcases h2 with h | h | h <;> rw [h] <;>
      exact ⟨by cases p <;> simp [adapter_tags],
        fun hn => absurd (by decide) hn⟩
  · rcases h3 with h | h | h <;> rw [h] <;>
      exact ⟨by cases p <;> simp [adapter_tags],
        fun hn => absurd (by decide) hn⟩
  · rw [h4]
    exact ⟨by cases p <;> simp [adapter_tags],
      fun hn => absurd (by decide) hn⟩
  · rw [h5]
    exact ⟨by cases p <;> simp [adapter_tags],
      fun hn => absurd (by decide) hn⟩
  · rcases h6 with h | h | h <;> rw [h] <;>
      exact ⟨by cases p <;> simp [adapter_tags],
        fun hn => absurd (by decide) hn⟩
  · rcases h7 with h | h | h | h <;> rw [h] <;>
      exact ⟨by cases p <;> simp [adapter_tags],
        fun hn => absurd (by decide) hn⟩
  · push_neg at h1 h2 h3 h4 h5 h6 h7
    refine ⟨?_, fun hn => rfl⟩
    cases p <;> simp [adapter_tags] <;> tauto

/-- Witness for C9: a lower-case accepted spelling is recognized, and an
unrelated tag is rejected with `UnsupportedProtocol`. -/
theorem create_adapter_cases_witness :
    create_adapter "opc-ua" = Except.ok Adapter.opcUa ∧
    create_adapter "ZIGBEE" =
      Except.error (ProtocolError.unsupportedProtocol "ZIGBEE") :=
  ⟨(create_adapter_cases "opc-ua" Adapter.opcUa).1.mpr (by decide),
   (create_adapter_cases "ZIGBEE" Adapter.opcUa).2 (by decide)⟩

/-! ## Data validator (`security/data_validator.rs`) -/

/-- Validation configuration (`ValidationConfig`); the `f64` threshold is
modelled as `ℚ`. -/
structure ValidationConfig where
  reject_bad_quality : Bool
  reject_uncertain_quality : Bool
  anomaly_std_dev_threshold : ℚ
  anomaly_min_samples : Nat
deriving DecidableEq, Repr

/-- The source's `Default for ValidationConfig`. -/
def ValidationConfig.default : ValidationConfig :=
  { reject_bad_quality := true
    reject_uncertain_quality := false
    anomaly_std_dev_threshold := 3
    anomaly_min_samples := 100 }

/-- Tag-specific validation rule (`TagValidationRule`). -/
structure TagValidationRule where
  tag_name : String
  min_value : Option ℚ
  max_value : Option ℚ
deriving DecidableEq, Repr

/-- Running statistics for one tag (`StatisticalTracker`). -/
structure StatisticalTracker where
  count : Nat
  sum : ℚ
  sum_squared : ℚ
deriving DecidableEq, Repr

/-- The constructor `StatisticalTracker::new`. -/
def StatisticalTracker.new : StatisticalTracker :=
  { count := 0, sum := 0, sum_squared := 0 }

/-- The mutation `StatisticalTracker::add_sample`. -/
def StatisticalTracker.add_sample (t : StatisticalTracker) (value : ℚ) :
    StatisticalTracker :=
  { count := t.count + 1
    sum := t.sum + value
    sum_squared := t.sum_squared + value * value }

/-- The query `StatisticalTracker::mean`. -/
def StatisticalTracker.mean (t : StatisticalTracker) : ℚ :=
  if t.count = 0 then 0 else t.sum / (t.count : ℚ)

/-- The square of `StatisticalTracker::std_dev`. The source computes
`variance.max(0.0).sqrt()` with `variance = sum_squared/count - mean²`
(0 below two samples); the square root of a rational is not rational, so
the embedding carries σ² and encodes every comparison against σ in
squared form (`is_anomaly_z_score` below proves the encoding right). -/
def std_dev_sq (t : StatisticalTracker) : ℚ :=
  if t.count < 2 then 0
  else max (t.sum_squared / (t.count : ℚ) - t.mean * t.mean) 0

/-- The query `StatisticalTracker::is_anomaly`: below `min_samples` or
with zero standard deviation nothing is an anomaly; otherwise compare the
z-score `|value - mean| / σ` against the threshold. The comparison
`|value - mean| / σ > threshold` is encoded without square roots as
`threshold < 0 ∨ threshold² σ² < (value - mean)²`. -/
def is_anomaly (t : StatisticalTracker) (value threshold : ℚ)
    (min_samples : Nat) : Bool :=
  if t.count < min_samples then false
  else if std_dev_sq t = 0 then false
  else
    decide (threshold < 0 ∨
      threshold ^ 2 * std_dev_sq t < (value - t.mean) ^ 2)

/-- The check `DataValidator::validate_quality`. -/
def validate_quality (cfg : ValidationConfig) (reading : ProtocolReading) :
    Except String Unit :=
  match reading.quality with
  | ReadingQuality.good => Except.ok ()
  | ReadingQuality.bad =>
    if cfg.reject_bad_quality then
      Except.error ("Reading has Bad quality for tag " ++ reading.tag_name)
    else
      Except.ok ()
  | ReadingQuality.uncertain =>
    if cfg.reject_uncertain_quality then
      Except.error ("Reading has Uncertain quality for tag " ++
        reading.tag_name)
    else
      Except.ok ()

/-- Does the reading value fall below the rule's configured minimum? -/
def below_min (rule : TagValidationRule) (value : ℚ) : Bool :=
  match rule.min_value with
  | some mn => decide (value < mn)
  | none => false

/-- Does the reading value exceed the rule's configured maximum? -/
def above_max (rule : TagValidationRule) (value : ℚ) : Bool :=
  match rule.max_value with
  | some mx => decide (mx < value)
  | none => false

/-- The check `DataValidator::validate_range` against the tag-rule map
(the `HashMap` lookup is modelled as a `String → Option` function;
diagnostic messages are abbreviated). -/
def validate_range (tag_rules : String → Option TagValidationRule)
    (reading : ProtocolReading) : Except String Unit :=
  match tag_rules reading.tag_name with
  | none => Except.ok ()
  | some rule =>
    if below_min rule reading.value then
      Except.error ("Value below minimum for tag " ++ reading.tag_name)
    else if above_max rule reading.value then
      Except.error ("Value above maximum for tag " ++ reading.tag_name)
    else
      Except.ok ()

/-- The table `DataValidator::default_tag_rules`. -/
def default_tag_rules : String → Option TagValidationRule := fun tag =>
  if tag = "oil_rate" then some ⟨"oil_rate", some 0, some 10000⟩
  else if tag = "gas_rate" then some ⟨"gas_rate", some 0, some 50000⟩
  else if tag = "water_rate" then some ⟨"water_rate", some 0, some 20000⟩
  else if tag = "tubing_pressure" then
    some ⟨"tubing_pressure", some 0, some 5000⟩
  else if tag = "casing_pressure" then
    some ⟨"casing_pressure", some 0, some 5000⟩
  else if tag = "temperature" then some ⟨"temperature", some (-40), some 300⟩
  else if tag = "flow_rate" then some ⟨"flow_rate", some 0, some 500⟩
  else none

/-- The check `DataValidator::validate_anomaly`. The per-tag tracker map
is a total function (`HashMap::entry(..).or_insert(new)`: an absent tag
reads as the fresh tracker, so inserting the untouched fresh tracker is
the identity). Returns the verdict and the updated tracker map; the
sample is added only after the anomaly check passes. -/
def validate_anomaly (cfg : ValidationConfig)
    (statistics : String → StatisticalTracker) (reading : ProtocolReading) :
    Except String Unit × (String → StatisticalTracker) :=
  if cfg.anomaly_std_dev_threshold ≤ 0 then
    (Except.ok (), statistics)
  else
    let tracker := statistics reading.tag_name
    if is_anomaly tracker reading.value cfg.anomaly_std_dev_threshold
        cfg.anomaly_min_samples then
      (Except.error ("Statistical anomaly detected for tag " ++
        reading.tag_name), statistics)
    else
      (Except.ok (), fun n =>
        if n = reading.tag_name then tracker.add_sample reading.value
        else statistics n)

/-- The pipeline `DataValidator::validate_reading`: quality, then range,
then anomaly; the first rejection short-circuits. -/
def validate_reading (cfg : ValidationConfig)
    (tag_rules : String → Option TagValidationRule)
    (statistics : String → StatisticalTracker) (reading : ProtocolReading) :
    Except String Unit × (String → StatisticalTracker) :=
  match validate_quality cfg reading with
  | Except.error e => (Except.error e, statistics)
  | Except.ok _ =>
    match validate_range tag_rules reading with
    | Except.error e => (Except.error e, statistics)
    | Except.ok _ => validate_anomaly cfg statistics reading

/-- C10. Whenever `validate_reading` rejects a reading — for quality,
range, or anomaly reasons — the per-tag statistical tracker map is
returned unchanged: a rejected value is never added to any tracker's
count, sum, or sum of squares. -/
theorem rejected_reading_adds_no_sample (cfg : ValidationConfig)
    (tag_rules : String → Option TagValidationRule)
    (statistics : String → StatisticalTracker) (reading : ProtocolReading)
    (e : String)
    (he : (validate_reading cfg tag_rules statistics reading).1 =
      Except.error e) :
    (validate_reading cfg tag_rules statistics reading).2 = statistics := by
  unfold validate_reading at he ⊢
  cases hq : validate_quality cfg reading with
  | error e1 => simp only [hq]
  | ok u =>
    cases hr : validate_range tag_rules reading with
    | error e1 => simp only [hq, hr]
    | ok u2 =>
      simp only [hq, hr] at he ⊢
      simp only [validate_anomaly] at he ⊢
      split_ifs at he ⊢
      all_goals simp_all

/-- A reading carrying Bad quality, used by the C10 witness. -/
def badReading : ProtocolReading :=
  { timestamp := 0
    tenant_id := 1
    well_id := 2
    tag_name := "oil_rate"
    value := 500
    quality := ReadingQuality.bad
    source_protocol := "TEST" }

/-- Witness for C10: the default configuration rejects a Bad-quality
reading and the tracker map is untouched. -/
theorem rejected_reading_adds_no_sample_witness :
    (validate_reading ValidationConfig.default default_tag_rules
      (fun _ => StatisticalTracker.new) badReading).2 =
      (fun _ => StatisticalTracker.new) :=
  rejected_reading_adds_no_sample ValidationConfig.default default_tag_rules
    (fun _ => StatisticalTracker.new) badReading
    "Reading has Bad quality for tag oil_rate" rfl

/-- The squared standard deviation is never negative (the source clamps
the variance at 0 before taking the root). -/
lemma std_dev_sq_nonneg (t : StatisticalTracker) : 0 ≤ std_dev_sq t := by
  unfold std_dev_sq
  split
  · exact le_refl 0
  · exact le_max_right _ 0

/-- C5. `is_anomaly` flags a value exactly when the tracker has at least
`min_samples` samples, the standard deviation `σ = √(σ²)` is strictly
positive, and the z-score `|value − mean| / σ` exceeds the threshold
(whose defaults are 3.0 and 100); and `validate_anomaly` changes the
tracker map only by adding the passing reading's value as a sample to its
own tag's tracker — a flagged value is never added. -/
theorem anomaly_filter_spec (t : StatisticalTracker) (x thr : ℚ) (m : Nat) :
    (is_anomaly t x thr m = true ↔
      (m ≤ t.count ∧
        0 < Real.sqrt (std_dev_sq t : ℝ) ∧
        (thr : ℝ) <
          |(x : ℝ) - (t.mean : ℝ)| / Real.sqrt (std_dev_sq t : ℝ))) ∧
    ValidationConfig.default.anomaly_std_dev_threshold = 3 ∧
    ValidationConfig.default.anomaly_min_samples = 100 ∧
    (∀ (cfg : ValidationConfig)
        (statistics : String → StatisticalTracker)
        (r : ProtocolReading) (tag : String),
      (validate_anomaly cfg statistics r).2 tag ≠ statistics tag →
        tag = r.tag_name ∧
        is_anomaly (statistics r.tag_name) r.value
          cfg.anomaly_std_dev_threshold cfg.anomaly_min_samples = false ∧
        (validate_anomaly cfg statistics r).2 tag =
          (statistics r.tag_name).add_sample r.value) := by
  refine ⟨?_, rfl, rfl, ?_⟩
  · unfold is_anomaly
    by_cases h1 : t.count < m
    · rw [if_pos h1]
      simp only [Bool.false_eq_true, false_iff]
      exact fun hc => absurd hc.1 (by omega)
    · rw [if_neg h1]
      by_cases h2 : std_dev_sq t = 0
      · rw [if_pos h2]
        simp only [Bool.false_eq_true, false_iff]
        intro hc
        rw [h2] at hc
        simpa using hc.2.1
      · rw [if_neg h2, decide_eq_true_iff]
        have hpos : 0 < std_dev_sq t :=
          lt_of_le_of_ne (std_dev_sq_nonneg t) (Ne.symm h2)
        have hv : (0 : ℝ) < (std_dev_sq t : ℝ) := by exact_mod_cast hpos
        have hsq : 0 < Real.sqrt (std_dev_sq t : ℝ) := Real.sqrt_pos.mpr hv
        constructor
        · rintro (hneg | hlt)
          · refine ⟨by omega, hsq, ?_⟩
            have hnegR : (thr : ℝ) < 0 := by exact_mod_cast hneg
            exact lt_of_lt_of_le hnegR (by positivity)
          · refine ⟨by omega, hsq, ?_⟩
            rw [lt_div_iff₀ hsq]
            have hltR : (thr : ℝ) ^ 2 * (std_dev_sq t : ℝ) <
                ((x : ℝ) - (t.mean : ℝ)) ^ 2 := by exact_mod_cast hlt
            rcases lt_or_le thr 0 with hneg2 | hpos2
            · have hnegR : (thr : ℝ) < 0 := by exact_mod_cast hneg2
              calc (thr : ℝ) * Real.sqrt (std_dev_sq t : ℝ) < 0 :=
                    mul_neg_of_neg_of_pos hnegR hsq
                _ ≤ |(x : ℝ) - (t.mean : ℝ)| := abs_nonneg _
            · by_contra hab
              push_neg at hab
              have hthrR : (0 : ℝ) ≤ (thr : ℝ) := by exact_mod_cast hpos2
              have hmm := mul_self_le_mul_self
                (abs_nonneg ((x : ℝ) - (t.mean : ℝ))) hab
              nlinarith [Real.sq_sqrt hv.le,
                sq_abs ((x : ℝ) - (t.mean : ℝ))]
        · rintro ⟨hm, hs, hz⟩
          rcases lt_or_le thr 0 with hneg2 | hpos2
          · exact Or.inl hneg2
          · right
            have hthrR : (0 : ℝ) ≤ (thr : ℝ) := by exact_mod_cast hpos2
            have h1R : (thr : ℝ) * Real.sqrt (std_dev_sq t : ℝ) <
                |(x : ℝ) - (t.mean : ℝ)| := (lt_div_iff₀ hsq).mp hz
            have key : (thr : ℝ) ^ 2 * (std_dev_sq t : ℝ) <
                ((x : ℝ) - (t.mean : ℝ)) ^ 2 := by
              nlinarith [mul_self_lt_mul_self
                  (mul_nonneg hthrR hsq.le) h1R,
                Real.sq_sqrt hv.le, sq_abs ((x : ℝ) - (t.mean : ℝ))]
            exact_mod_cast key
  · intro cfg statistics r tag hne
    simp only [validate_anomaly] at hne ⊢
    by_cases hth : cfg.anomaly_std_dev_threshold ≤ 0
    · rw [if_pos hth] at hne
      exact absurd rfl hne
    · rw [if_neg hth] at hne ⊢
      by_cases han : is_anomaly (statistics r.tag_name) r.value
          cfg.anomaly_std_dev_threshold cfg.anomaly_min_samples = true
      · rw [if_pos han] at hne
        exact absurd rfl hne
      · rw [if_neg han] at hne ⊢
        by_cases htag : tag = r.tag_name
        · subst htag
          refine ⟨rfl, by simpa using han, ?_⟩
          simp
        · simp only [if_neg htag] at hne
          exact absurd rfl hne

/-- A Good-quality reading used by the C5 witness. -/
def goodReading : ProtocolReading :=
  { badReading with quality := ReadingQuality.good }

/-- A tracker with 100 samples, mean 0 and unit variance, used by the C5
witness. -/
def unitTracker : StatisticalTracker :=
  { count := 100, sum := 0, sum_squared := 100 }

/-- Witness for C5: the value 4 is flagged against the unit tracker at
threshold 3 (so the z-score characterization is inhabited), and a
passing reading's value is added to its own tag's tracker. -/
theorem anomaly_filter_spec_witness :
    (100 ≤ unitTracker.count ∧
     0 < Real.sqrt (std_dev_sq unitTracker : ℝ) ∧
     ((3 : ℚ) : ℝ) <
       |((4 : ℚ) : ℝ) - (unitTracker.mean : ℝ)| /
         Real.sqrt (std_dev_sq unitTracker : ℝ)) ∧
    (validate_anomaly ValidationConfig.default
        (fun _ => StatisticalTracker.new) goodReading).2 "oil_rate" =
      StatisticalTracker.new.add_sample 500 :=
  ⟨(anomaly_filter_spec unitTracker 4 3 100).1.mp
     (by norm_num [is_anomaly, std_dev_sq, StatisticalTracker.mean,
       unitTracker]),
   ((anomaly_filter_spec unitTracker 4 3 100).2.2.2 ValidationConfig.default
     (fun _ => StatisticalTracker.new) goodReading "oil_rate"
     (fun h =>
       absurd (congrArg StatisticalTracker.count h) (by decide))).2.2⟩

/-! ## Tenant router poll loop (`tenant_router_v2.rs`) -/

/-- Rendering of `ReadingQuality` used when the poll loop converts
readings (`quality.to_string()`, via the `Display` impl). -/
def quality_to_string : ReadingQuality → String
  | ReadingQuality.good => "Good"
  | ReadingQuality.bad => "Bad"
  | ReadingQuality.uncertain => "Uncertain"

/-- The poll loop's conversion of an adapter `ProtocolReading` into the
aggregator's `TagReading` (`start_polling_loop`). -/
def to_tag_reading (r : ProtocolReading) : TagReading :=
  { tenant_id := r.tenant_id
    well_id := r.well_id
    tag_node_id := r.tag_name
    timestamp := r.timestamp
    value := r.value
    quality := quality_to_string r.quality }

/-- Routing of one successfully polled reading inside the loop body: look
up the aggregator keyed by the reading's tenant id and feed it through
`add_reading`; with no aggregator the reading is dropped with an error
log. The aggregator map is a total function to `Option`. -/
def route_reading (max_buffer_size : Nat)
    (aggregators : Nat → Option AggregatorState) (r : ProtocolReading) :
    Nat → Option AggregatorState :=
  match aggregators r.tenant_id with
  | some a => fun t =>
      if t = r.tenant_id then
        some (add_reading max_buffer_size (to_tag_reading r) a)
      else
        aggregators t
  | none => aggregators

/-- One tick of the loop body of `TenantRouter::start_polling_loop`. The
outcome of each adapter's `poll()` on this tick is supplied as data, in
the iteration order of the adapter map. The tick routes `Ok` readings to
per-tenant aggregators and only debug-logs `Err` outcomes. The router
owns no health monitors, so the supplied monitor map is neither consulted
nor updated and is passed through unchanged; the returned id list records
which adapters were polled — all of them, unconditionally. -/
def poll_tick (max_buffer_size : Nat)
    (poll_results : List (Nat × Except ProtocolError (List ProtocolReading)))
    (aggregators : Nat → Option AggregatorState)
    (monitors : Nat → HealthMonitorState) :
    (Nat → Option AggregatorState) × (Nat → HealthMonitorState) × List Nat :=
  (poll_results.foldl
    (fun aggs res =>
      match res.2 with
      | Except.ok readings =>
        readings.foldl (route_reading max_buffer_size) aggs
      | Except.error _ => aggs)
    aggregators,
   monitors,
   poll_results.map Prod.fst)

/-- A monitor whose breaker has just opened (threshold 1, failure at
instant 0): `can_attempt_connection` refuses at instant 0. -/
def openMonitor : HealthMonitorState :=
  record_failures cfgT1 1

/-- C3. The poll loop does not gate polls on the health monitor and does
not record failures: with the only adapter's monitor in the Open breaker
state (where `can_attempt_connection` answers false) and the adapter's
poll failing, the tick still polls that adapter (its id appears in the
polled list) and returns the monitor map unchanged — the failure is never
recorded on it. -/
theorem poll_gating_counterexample :
    (can_attempt_connection cfgT1 0 openMonitor).1 = false ∧
    (poll_tick 1000 [(7, Except.error ProtocolError.notConnected)]
      (fun _ => none) (fun _ => openMonitor)).2.2 = [7] ∧
    (poll_tick 1000 [(7, Except.error ProtocolError.notConnected)]
      (fun _ => none) (fun _ => openMonitor)).2.1 7 = openMonitor := by
  refine ⟨by decide, rfl, rfl⟩

/-- C3 (amended). On every tick the router polls every adapter in the
map, unconditionally — no health monitor is consulted; the monitor map is
returned unchanged (failures are never recorded on it); and failed polls
are contained by the loop: when every adapter's poll fails, the
aggregator map is also unchanged, the errors having been logged and
dropped rather than propagated. -/
theorem poll_tick_unconditional (max_buffer_size : Nat)
    (poll_results : List (Nat × Except ProtocolError (List ProtocolReading)))
    (aggregators : Nat → Option AggregatorState)
    (monitors : Nat → HealthMonitorState) :
    (poll_tick max_buffer_size poll_results aggregators monitors).2.2 =
      poll_results.map Prod.fst ∧
    (poll_tick max_buffer_size poll_results aggregators monitors).2.1 =
      monitors ∧
    ((∀ r ∈ poll_results, ∃ e, r.2 = Except.error e) →
      (poll_tick max_buffer_size poll_results aggregators monitors).1 =
        aggregators) := by
  refine ⟨rfl, rfl, ?_⟩
  unfold poll_tick
  induction poll_results generalizing aggregators with
  | nil => intro _; rfl
  | cons head tail ih =>
    intro h
    obtain ⟨e, he⟩ := h head (List.mem_cons_self head tail)
    simp only [List.foldl_cons, he]
    exact ih aggregators (fun r hr => h r (List.mem_cons_of_mem head hr))

/-- Witness for C3's amended theorem: a single failing adapter is polled,
and neither the monitor map nor the aggregator map changes. -/
theorem poll_tick_unconditional_witness :
    (poll_tick 1000 [(3, Except.error ProtocolError.timeout)]
      (fun _ => none) (fun _ => openMonitor)).2.2 = [3] ∧
    (poll_tick 1000 [(3, Except.error ProtocolError.timeout)]
      (fun _ => none) (fun _ => openMonitor)).2.1 = (fun _ => openMonitor) ∧
    (poll_tick 1000 [(3, Except.error ProtocolError.timeout)]
      (fun _ => none) (fun _ => openMonitor)).1 = (fun _ => none) := by
  obtain ⟨h1, h2, h3⟩ := poll_tick_unconditional 1000
    [(3, Except.error ProtocolError.timeout)] (fun _ => none)
    (fun _ => openMonitor)
  refine ⟨h1, h2, h3 ?_⟩
  intro r hr
  rw [List.mem_singleton] at hr
  subst hr
  exact ⟨ProtocolError.timeout, rfl⟩

end WellPulse
